import Mathlib

/-!
Shallow embedding of the FastAPI + MongoDB inventory service (`src/main.py`).

The service exposes CRUD handlers over two MongoDB collections, `items` and
`clock_in_records`.  We model the database as an in-memory list of documents
per collection, with a counter supplying fresh ObjectIds, and translate each
HTTP handler into a pure Lean function.  Library behaviour the handlers rely
on is embedded faithfully:

* `bson.ObjectId(s)` accepts exactly a 24-character hex string and raises
  `InvalidId` otherwise; `str(ObjectId)` produces the 24 lowercase hex digits.
* `datetime.strptime` with the `%Y-%m-%d` and `%Y-%m-%dT%H:%M:%S` patterns:
  the year field matches exactly four digits, the month/day/hour/minute/second
  fields match one or two digits within their ranges, the whole string must be
  consumed, and `datetime` construction rejects out-of-range days and year 0.
* pydantic v1 request-body validation for the `Item` model: required fields,
  with `int` coercing numeric strings and `str` coercing ints.
* MongoDB `update_one` with an empty `$set` document is rejected by the
  server, surfacing in the driver as an `OperationFailure`.
* FastAPI surfaces pydantic validation failures as status 422, an explicit
  `HTTPException` with its given status, and any exception escaping a handler
  as status 500.
-/

/-- Model of a Python `datetime` value: the fields `strptime` fills in.
Comparison (used by Mongo `$gt` queries) goes through a lexicographic key. -/
structure PyDateTime where
  year : Nat
  month : Nat
  day : Nat
  hour : Nat
  minute : Nat
  second : Nat
deriving DecidableEq, Repr

/-- Lexicographic encoding of a datetime, monotone on in-range field values. -/
def PyDateTime.key (t : PyDateTime) : Nat :=
  ((((t.year * 13 + t.month) * 32 + t.day) * 24 + t.hour) * 60 + t.minute) * 60 + t.second

/-- Strict order on datetimes, as MongoDB compares date values in `$gt`. -/
def PyDateTime.ltb (a b : PyDateTime) : Bool :=
  a.key < b.key

/-- Hex digit character for a value below 16, lowercase as `str(ObjectId)` prints. -/
def hexChar (n : Nat) : Char :=
  if n < 10 then Char.ofNat (48 + n) else Char.ofNat (87 + n)

/-- Numeric value of a hex digit character; `none` on a non-hex character.
Both cases are accepted, as in `bson.ObjectId`'s validity check. -/
def hexVal (c : Char) : Option Nat :=
  if 48 ≤ c.toNat ∧ c.toNat ≤ 57 then some (c.toNat - 48)
  else if 97 ≤ c.toNat ∧ c.toNat ≤ 102 then some (c.toNat - 87)
  else if 65 ≤ c.toNat ∧ c.toNat ≤ 70 then some (c.toNat - 55)
  else none

/-- Big-endian hex digits of `n`, padded to `k` characters. -/
def hexDigitsBE : Nat → Nat → List Char
  | 0, _ => []
  | k + 1, n => hexDigitsBE k (n / 16) ++ [hexChar (n % 16)]

/-- Accumulating hex parser over a character list. -/
def parseHexAux : List Char → Nat → Option Nat
  | [], acc => some acc
  | c :: cs, acc =>
    match hexVal c with
    | some d => parseHexAux cs (16 * acc + d)
    | none => none

/-- The string form of an ObjectId in the model: `str(ObjectId)`, 24 hex digits. -/
def oidStr (n : Nat) : String :=
  ⟨hexDigitsBE 24 n⟩

/-- The `bson.ObjectId` constructor on a string id: succeeds exactly on a
24-character hex string, otherwise raises `InvalidId` (modelled as `none`). -/
def parseOid (s : String) : Option Nat :=
  if s.length = 24 then parseHexAux s.data 0 else none

theorem hexVal_hexChar : ∀ n : Fin 16, hexVal (hexChar n.val) = some n.val := by
  decide

theorem parseHexAux_append (l₁ l₂ : List Char) (acc : Nat) :
    parseHexAux (l₁ ++ l₂) acc =
      match parseHexAux l₁ acc with
      | some a => parseHexAux l₂ a
      | none => none := by
  induction l₁ generalizing acc with
  | nil => simp [parseHexAux]
  | cons c cs ih =>
    simp only [List.cons_append, parseHexAux]
    cases hexVal c with
    | some d => exact ih _
    | none => rfl

theorem parseHexAux_hexDigitsBE (k : Nat) :
    ∀ n acc, parseHexAux (hexDigitsBE k n) acc = some (acc * 16 ^ k + n % 16 ^ k) := by
  induction k with
  | zero => intro n acc; simp [hexDigitsBE, parseHexAux, Nat.mod_one]
  | succ k ih =>
    intro n acc
    have hmod : n % 16 < 16 := Nat.mod_lt _ (by omega)
    have hv : hexVal (hexChar (n % 16)) = some (n % 16) := hexVal_hexChar ⟨n % 16, hmod⟩
    rw [hexDigitsBE, parseHexAux_append, ih]
    simp only [parseHexAux, hv]
    congr 1
    have h16 : (16 : Nat) ^ (k + 1) = 16 * 16 ^ k := by ring
    have hsplit : n % 16 ^ (k + 1) = n % 16 + 16 * (n / 16 % 16 ^ k) := by
      rw [h16, Nat.mod_mul]
    rw [hsplit]
    ring

theorem length_hexDigitsBE (k n : Nat) : (hexDigitsBE k n).length = k := by
  induction k generalizing n with
  | zero => rfl
  | succ k ih => simp [hexDigitsBE, ih]

/-- Round trip through the id encoding: `ObjectId(str(o)) == o`. -/
theorem parseOid_oidStr (n : Nat) (h : n < 16 ^ 24) : parseOid (oidStr n) = some n := by
  have hlen : (oidStr n).length = 24 := length_hexDigitsBE 24 n
  show (if (oidStr n).length = 24 then parseHexAux (oidStr n).data 0 else none) = some n
  rw [if_pos hlen]
  show parseHexAux (hexDigitsBE 24 n) 0 = some n
  rw [parseHexAux_hexDigitsBE]
  have hmod : n % 16 ^ 24 = n := Nat.mod_eq_of_lt h
  rw [Nat.zero_mul, Nat.zero_add, hmod]

/-- Numeric value of a list of decimal digit characters. -/
def readNatDigits (cs : List Char) : Nat :=
  cs.foldl (fun a c => 10 * a + (c.toNat - 48)) 0

/-- All characters are decimal digits. -/
def allDigits (cs : List Char) : Bool :=
  cs.all (·.isDigit)

/-- Python's Gregorian leap-year rule, as used by `datetime`. -/
def isLeapYear (y : Nat) : Bool :=
  y % 4 = 0 && (y % 100 ≠ 0 || y % 400 = 0)

/-- Number of days of month `m` in year `y`, as `datetime` validates days. -/
def daysInMonth (y m : Nat) : Nat :=
  if m = 2 then (if isLeapYear y then 29 else 28)
  else if m = 4 ∨ m = 6 ∨ m = 9 ∨ m = 11 then 30
  else 31

/-- A one-or-two-digit `strptime` field (`%m`, `%d`, `%H`, `%M`, `%S`) with its
numeric range: these directives match one or two digit characters whose value
lies within the directive's range. -/
def parseField (cs : List Char) (lo hi : Nat) : Option Nat :=
  if (cs.length = 1 ∨ cs.length = 2) ∧ allDigits cs
      ∧ lo ≤ readNatDigits cs ∧ readNatDigits cs ≤ hi
  then some (readNatDigits cs) else none

/-- The `%Y-%m-%d` part of a `strptime` pattern followed by `datetime`
construction: exactly four digits of year, dash, month, dash, day, with year
at least 1 and the day valid for the month. -/
def parseYmdParts (cs : List Char) : Option (Nat × Nat × Nat) :=
  match cs.splitOn '-' with
  | [ys, ms, ds] =>
    if ys.length = 4 ∧ allDigits ys ∧ 1 ≤ readNatDigits ys then
      match parseField ms 1 12, parseField ds 1 31 with
      | some m, some d =>
        if d ≤ daysInMonth (readNatDigits ys) m then some (readNatDigits ys, m, d) else none
      | _, _ => none
    else none
  | _ => none

/-- `datetime.strptime(s, "%Y-%m-%d")`: `none` models the `ValueError`. -/
def parseDate (s : String) : Option PyDateTime :=
  (parseYmdParts s.data).map (fun p => ⟨p.1, p.2.1, p.2.2, 0, 0, 0⟩)

/-- The `%H:%M:%S` part of a `strptime` pattern. -/
def parseHmsParts (cs : List Char) : Option (Nat × Nat × Nat) :=
  match cs.splitOn ':' with
  | [hs, ms, ss] =>
    match parseField hs 0 23, parseField ms 0 59, parseField ss 0 59 with
    | some h, some m, some s => some (h, m, s)
    | _, _, _ => none
  | _ => none

/-- `datetime.strptime(s, "%Y-%m-%dT%H:%M:%S")`: `none` models the `ValueError`. -/
def parseDateTime (s : String) : Option PyDateTime :=
  match s.data.splitOn 'T' with
  | [dpart, tpart] =>
    match parseYmdParts dpart, parseHmsParts tpart with
    | some p, some q => some ⟨p.1, p.2.1, p.2.2, q.1, q.2.1, q.2.2⟩
    | _, _ => none
  | _ => none

/-- A JSON scalar as it reaches pydantic from the request body. -/
inductive JVal where
  | jstr (v : String)
  | jint (v : Int)
  | jnull
deriving DecidableEq, Repr

/-- Field lookup in a JSON object body. -/
def lookupField (body : List (String × JVal)) (k : String) : Option JVal :=
  (body.find? (fun p => p.1 = k)).map (·.2)

/-- Digit run with single underscores allowed between digits, continuing
after an initial digit: the shape Python's `int(str)` accepts. -/
def intDigitsRest : List Char → Bool
  | [] => true
  | '_' :: rest =>
    match rest with
    | [] => false
    | c :: cs => c.isDigit && intDigitsRest cs
  | c :: cs => c.isDigit && intDigitsRest cs

/-- Nonempty digit run with single underscores between digits. -/
def intDigits : List Char → Bool
  | [] => false
  | c :: cs => c.isDigit && intDigitsRest cs

/-- Python's `int(str)` conversion, used by pydantic v1 to coerce a string to
an `int` field: surrounding whitespace, an optional sign, then digits with
single underscore separators. -/
def parsePyInt (s : String) : Option Int :=
  let cs := s.trim.data
  let core : List Char → Option Int := fun ds =>
    if intDigits ds then some (Int.ofNat (readNatDigits (ds.filter (fun c => c ≠ '_')))) else none
  match cs with
  | '+' :: rest => core rest
  | '-' :: rest => (core rest).map (fun v => -v)
  | _ => core cs

/-- pydantic v1 coercion to a required `str` field: strings pass through and
ints are stringified; `null`/missing is rejected. -/
def asStr : JVal → Option String
  | .jstr v => some v
  | .jint v => some (toString v)
  | .jnull => none

/-- pydantic v1 coercion to a required `int` field: ints pass through and
numeric strings are converted; `null`/missing is rejected. -/
def asInt : JVal → Option Int
  | .jint v => some v
  | .jstr v => parsePyInt v
  | .jnull => none

/-- The validated `Item` request model of `main.py`. -/
structure ItemIn where
  name : String
  email : String
  item_name : String
  quantity : Int
  expiry_date : String
deriving DecidableEq, Repr

/-- pydantic validation of a request body against the `Item` model: every
field is required; unknown keys are ignored; `none` models `ValidationError`. -/
def decodeItem (body : List (String × JVal)) : Option ItemIn := do
  let name ← (lookupField body "name").bind asStr
  let email ← (lookupField body "email").bind asStr
  let item_name ← (lookupField body "item_name").bind asStr
  let quantity ← (lookupField body "quantity").bind asInt
  let expiry_date ← (lookupField body "expiry_date").bind asStr
  pure ⟨name, email, item_name, quantity, expiry_date⟩

/-- The `UpdateItem` request model: every field optional, defaulting to
`None`; a field that is omitted or sent as `null` is `none` here. -/
structure UpdateItem where
  name : Option String := none
  email : Option String := none
  item_name : Option String := none
  quantity : Option Int := none
  expiry_date : Option String := none
deriving DecidableEq, Repr

/-- The `UpdateClockInRecord` request model. -/
structure UpdateClockInRecord where
  email : Option String := none
  location : Option String := none
deriving DecidableEq, Repr

/-- A document of the `items` collection. -/
structure ItemDoc where
  oid : Nat
  name : String
  email : String
  item_name : String
  quantity : Int
  expiry_date : PyDateTime
  insert_date : PyDateTime
deriving DecidableEq, Repr

/-- A document of the `clock_in_records` collection. -/
structure ClockDoc where
  oid : Nat
  email : String
  location : String
  insert_datetime : PyDateTime
deriving DecidableEq, Repr

/-- The database state: both collections in insertion order, plus the supply
of fresh ObjectIds the store draws from. -/
structure Store where
  items : List ItemDoc
  clock_in_records : List ClockDoc
  nextOid : Nat
deriving DecidableEq, Repr

/-- The store before any request. -/
def emptyStore : Store :=
  ⟨[], [], 0⟩

/-- Well-formed store: ids are store-generated, hence below the fresh-id
supply and pairwise distinct within each collection. -/
def Store.WF (s : Store) : Prop :=
  (∀ d ∈ s.items, d.oid < s.nextOid) ∧
  (∀ d ∈ s.clock_in_records, d.oid < s.nextOid) ∧
  (s.items.map ItemDoc.oid).Nodup ∧
  (s.clock_in_records.map ClockDoc.oid).Nodup

/-- An exception escaping a handler: `ValueError` from `strptime`,
`bson.errors.InvalidId` from `ObjectId`, `OperationFailure` from the driver,
`TypeError` from subscripting `None`. -/
inductive Exn where
  | valueError
  | invalidId
  | operationFailure
  | typeError
deriving DecidableEq, Repr

/-- How a request fails: the body is rejected by pydantic before the handler
runs, the handler raises an `HTTPException` with an explicit status, or an
exception escapes the handler. -/
inductive Failure where
  | validationError
  | httpError (status : Nat) (detail : String)
  | unhandled (e : Exn)
deriving DecidableEq, Repr

/-- HTTP status the framework sends for each failure: 422 for pydantic
validation, the explicit status of an `HTTPException`, 500 for an exception
that escapes the handler. -/
def surfacedStatus : Failure → Nat
  | .validationError => 422
  | .httpError st _ => st
  | .unhandled _ => 500

/-- A status in the 4xx client-error class. -/
def isClientError (st : Nat) : Bool :=
  400 ≤ st ∧ st < 500

/-- Serialized item as returned to the client. -/
structure ItemOut where
  id : String
  name : String
  email : String
  item_name : String
  quantity : Int
  expiry_date : PyDateTime
  insert_date : PyDateTime
deriving DecidableEq, Repr

/-- Serialized clock-in record as returned to the client. -/
structure ClockOut where
  id : String
  email : String
  location : String
  insert_datetime : PyDateTime
deriving DecidableEq, Repr

/-- `item_serializer` of `main.py`: replaces the ObjectId with its string
form and passes the remaining fields through. -/
def item_serializer (d : ItemDoc) : ItemOut :=
  ⟨oidStr d.oid, d.name, d.email, d.item_name, d.quantity, d.expiry_date, d.insert_date⟩

/-- The inline clock-in serialization of `main.py`. -/
def clock_serializer (d : ClockDoc) : ClockOut :=
  ⟨oidStr d.oid, d.email, d.location, d.insert_datetime⟩

/-- `find_one({"_id": o})` on the items collection: first matching document. -/
def findItem (l : List ItemDoc) (o : Nat) : Option ItemDoc :=
  l.find? (fun d => d.oid = o)

/-- `find_one({"_id": o})` on the clock-in collection. -/
def findClock (l : List ClockDoc) (o : Nat) : Option ClockDoc :=
  l.find? (fun d => d.oid = o)

/-- `update_one({"_id": o}, ...)`: rewrite the first matching document with
`f`; `none` when no document matched (`matched_count == 0`). -/
def updateFirst {α : Type} (oid : α → Nat) : List α → Nat → (α → α) → Option (List α)
  | [], _, _ => none
  | d :: ds, o, f =>
    if oid d = o then some (f d :: ds)
    else (updateFirst oid ds o f).map (fun l => d :: l)

/-- `delete_one({"_id": o})`: remove the first matching document; `none` when
no document matched (`deleted_count == 0`). -/
def deleteFirst {α : Type} (oid : α → Nat) : List α → Nat → Option (List α)
  | [], _ => none
  | d :: ds, o =>
    if oid d = o then some ds
    else (deleteFirst oid ds o).map (fun l => d :: l)

/-- `POST /items` (`create_item`): validate the body, stamp `insert_date`
with the current UTC time, parse `expiry_date` with `%Y-%m-%d`, insert, read
the inserted document back and serialize it.  The handler is a function of
the store and returns the store after the request. -/
def create_item (s : Store) (now : PyDateTime) (body : List (String × JVal)) :
    Except Failure ItemOut × Store :=
  match decodeItem body with
  | none => (.error .validationError, s)
  | some item =>
    match parseDate item.expiry_date with
    | none => (.error (.unhandled .valueError), s)
    | some exp =>
      let doc : ItemDoc :=
        ⟨s.nextOid, item.name, item.email, item.item_name, item.quantity, exp, now⟩
      let s' : Store := ⟨s.items ++ [doc], s.clock_in_records, s.nextOid + 1⟩
      match findItem s'.items doc.oid with
      | some d => (.ok (item_serializer d), s')
      | none => (.error (.unhandled .typeError), s')

/-- The optional query parameters of `GET /items/filter`. -/
structure ItemFilter where
  email : Option String := none
  expiry_date_after : Option String := none
  insert_date_after : Option String := none
  quantity_gte : Option Int := none
deriving DecidableEq, Repr

/-- Truthiness of an optional string parameter: `if email:` treats an absent
and an empty value alike. -/
def truthyStr : Option String → Option String
  | some v => if v.isEmpty then none else some v
  | none => none

/-- Truthiness of an optional int parameter: `if quantity_gte:` treats an
absent and a zero value alike. -/
def truthyInt : Option Int → Option Int
  | some v => if v = 0 then none else some v
  | none => none

/-- The Mongo query document built by `filter_items`, applied to a document. -/
def matchesItem (qe : Option String) (qexp qins : Option PyDateTime) (qq : Option Int)
    (d : ItemDoc) : Bool :=
  (match qe with | some e => d.email = e | none => true) &&
  (match qexp with | some t => PyDateTime.ltb t d.expiry_date | none => true) &&
  (match qins with | some t => PyDateTime.ltb t d.insert_date | none => true) &&
  (match qq with | some q => q ≤ d.quantity | none => true)

/-- Parse a (truthy) optional date-after parameter with the given format. -/
def parseOptWith (pf : String → Option PyDateTime) :
    Option String → Except Failure (Option PyDateTime)
  | none => .ok none
  | some v =>
    match pf v with
    | some t => .ok (some t)
    | none => .error (.unhandled .valueError)

/-- `GET /items/filter` (`filter_items`): each provided truthy parameter adds
a clause to the query (dates parsed with `%Y-%m-%d`), then
`find(query).to_list(100)` returns the first 100 matching documents. -/
def filter_items (s : Store) (f : ItemFilter) : Except Failure (List ItemOut) := do
  let qexp ← parseOptWith parseDate (truthyStr f.expiry_date_after)
  let qins ← parseOptWith parseDate (truthyStr f.insert_date_after)
  let qe := truthyStr f.email
  let qq := truthyInt f.quantity_gte
  .ok (((s.items.filter (matchesItem qe qexp qins qq)).take 100).map item_serializer)

/-- `GET /items/aggregate` (`aggregate_items`): the `$group` by `$email` with
`count: {$sum: 1}` pipeline — one output entry per distinct email, counting
the documents carrying it. -/
def aggregate_items (s : Store) : List (String × Nat) :=
  ((s.items.map ItemDoc.email).dedup).map
    (fun e => (e, (s.items.filter (fun d => d.email = e)).length))

/-- `GET /items/{id}` (`get_item`): `ObjectId(id)` then `find_one`; a missing
document raises `HTTPException(204, "Item not found")`. -/
def get_item (s : Store) (id : String) : Except Failure ItemOut :=
  match parseOid id with
  | none => .error (.unhandled .invalidId)
  | some o =>
    match findItem s.items o with
    | some d => .ok (item_serializer d)
    | none => .error (.httpError 204 "Item not found")

/-- Whether the filtered `$set` document of an `UpdateItem` body is empty:
every field omitted or `null`. -/
def updFieldsEmpty (u : UpdateItem) : Bool :=
  u.name.isNone && u.email.isNone && u.item_name.isNone &&
  u.quantity.isNone && u.expiry_date.isNone

/-- Apply the non-null fields of an `UpdateItem` (with `expiry_date` already
parsed) to a document, as Mongo `$set` does. -/
def applyItemSet (u : UpdateItem) (exp : Option PyDateTime) (d : ItemDoc) : ItemDoc :=
  ⟨d.oid, u.name.getD d.name, u.email.getD d.email, u.item_name.getD d.item_name,
    u.quantity.getD d.quantity, exp.getD d.expiry_date, d.insert_date⟩

/-- The `update_one`/`find_one` tail of `update_item`, after `expiry_date`
has been parsed: `ObjectId(id)`, then the `$set` update (which the server
rejects when the document is empty), then the read-back on a match. -/
def update_item_go (s : Store) (id : String) (u : UpdateItem) (exp : Option PyDateTime) :
    Except Failure ItemOut × Store :=
  match parseOid id with
  | none => (.error (.unhandled .invalidId), s)
  | some o =>
    if updFieldsEmpty u then (.error (.unhandled .operationFailure), s)
    else
      match updateFirst ItemDoc.oid s.items o (applyItemSet u exp) with
      | some items' =>
        let s' : Store := ⟨items', s.clock_in_records, s.nextOid⟩
        match findItem s'.items o with
        | some d => (.ok (item_serializer d), s')
        | none => (.error (.unhandled .typeError), s')
      | none => (.error (.httpError 204 "Item not found"), s)

/-- `PUT /items/{id}` (`update_item`): drop the null fields of the body,
re-parse `expiry_date` with `%Y-%m-%d` when provided, then update and read
back. -/
def update_item (s : Store) (id : String) (u : UpdateItem) :
    Except Failure ItemOut × Store :=
  match u.expiry_date with
  | some es =>
    match parseDate es with
    | none => (.error (.unhandled .valueError), s)
    | some exp => update_item_go s id u (some exp)
  | none => update_item_go s id u none

/-- `DELETE /items/{id}` (`delete_item`): `ObjectId(id)` then `delete_one`;
a zero `deleted_count` raises `HTTPException(204, "Item not found")`. -/
def delete_item (s : Store) (id : String) : Except Failure String × Store :=
  match parseOid id with
  | none => (.error (.unhandled .invalidId), s)
  | some o =>
    match deleteFirst ItemDoc.oid s.items o with
    | some items' => (.ok "Item deleted", ⟨items', s.clock_in_records, s.nextOid⟩)
    | none => (.error (.httpError 204 "Item not found"), s)

/-- `POST /clock-in` (`create_clock_in`): stamp `insert_datetime` with the
current UTC time, insert, read back and serialize. -/
def create_clock_in (s : Store) (now : PyDateTime) (email location : String) :
    Except Failure ClockOut × Store :=
  let doc : ClockDoc := ⟨s.nextOid, email, location, now⟩
  let s' : Store := ⟨s.items, s.clock_in_records ++ [doc], s.nextOid + 1⟩
  match findClock s'.clock_in_records doc.oid with
  | some d => (.ok (clock_serializer d), s')
  | none => (.error (.unhandled .typeError), s')

/-- The optional query parameters of `GET /clock-in/filter`. -/
structure ClockFilter where
  email : Option String := none
  location : Option String := none
  insert_datetime_after : Option String := none
deriving DecidableEq, Repr

/-- The Mongo query document built by `filter_clock_in`, applied to a document. -/
def matchesClock (qe ql : Option String) (qins : Option PyDateTime) (d : ClockDoc) : Bool :=
  (match qe with | some e => d.email = e | none => true) &&
  (match ql with | some v => d.location = v | none => true) &&
  (match qins with | some t => PyDateTime.ltb t d.insert_datetime | none => true)

/-- `GET /clock-in/filter` (`filter_clock_in`): truthy parameters add query
clauses (`insert_datetime_after` parsed with `%Y-%m-%dT%H:%M:%S`), then
`find(query).to_list(100)`. -/
def filter_clock_in (s : Store) (f : ClockFilter) : Except Failure (List ClockOut) := do
  let qins ← parseOptWith parseDateTime (truthyStr f.insert_datetime_after)
  let qe := truthyStr f.email
  let ql := truthyStr f.location
  .ok (((s.clock_in_records.filter (matchesClock qe ql qins)).take 100).map clock_serializer)

/-- `GET /clock-in/{id}` (`get_clock_in`). -/
def get_clock_in (s : Store) (id : String) : Except Failure ClockOut :=
  match parseOid id with
  | none => .error (.unhandled .invalidId)
  | some o =>
    match findClock s.clock_in_records o with
    | some d => .ok (clock_serializer d)
    | none => .error (.httpError 204 "Clock-in record not found")

/-- Whether the filtered `$set` document of an `UpdateClockInRecord` body is
empty: every field omitted or `null`. -/
def updClockFieldsEmpty (u : UpdateClockInRecord) : Bool :=
  u.email.isNone && u.location.isNone

/-- Apply the non-null fields of an `UpdateClockInRecord` to a document. -/
def applyClockSet (u : UpdateClockInRecord) (d : ClockDoc) : ClockDoc :=
  ⟨d.oid, u.email.getD d.email, u.location.getD d.location, d.insert_datetime⟩

/-- `PUT /clock-in/{id}` (`update_clock_in`): drop the null fields, then the
`$set` update (rejected by the server when empty) and read-back on a match. -/
def update_clock_in (s : Store) (id : String) (u : UpdateClockInRecord) :
    Except Failure ClockOut × Store :=
  match parseOid id with
  | none => (.error (.unhandled .invalidId), s)
  | some o =>
    if updClockFieldsEmpty u then (.error (.unhandled .operationFailure), s)
    else
      match updateFirst ClockDoc.oid s.clock_in_records o (applyClockSet u) with
      | some recs' =>
        let s' : Store := ⟨s.items, recs', s.nextOid⟩
        match findClock s'.clock_in_records o with
        | some d => (.ok (clock_serializer d), s')
        | none => (.error (.unhandled .typeError), s')
      | none => (.error (.httpError 204 "Clock-in record not found"), s)

/-- `DELETE /clock-in/{id}` (`delete_clock_in`). -/
def delete_clock_in (s : Store) (id : String) : Except Failure String × Store :=
  match parseOid id with
  | none => (.error (.unhandled .invalidId), s)
  | some o =>
    match deleteFirst ClockDoc.oid s.clock_in_records o with
    | some recs' => (.ok "Clock-in record deleted", ⟨s.items, recs', s.nextOid⟩)
    | none => (.error (.httpError 204 "Clock-in record not found"), s)

theorem find?_append_fresh {α : Type} (p : α → Bool) (l : List α) (d : α)
    (h : ∀ x ∈ l, p x = false) :
    (l ++ [d]).find? p = if p d then some d else none := by
  induction l with
  | nil => cases hpd : p d <;> simp [List.find?, hpd]
  | cons x xs ih =>
    have hx : p x = false := h x (by simp)
    simp only [List.cons_append, List.find?, hx]
    exact ih (fun y hy => h y (by simp [hy]))

theorem findItem_append_self (l : List ItemDoc) (d : ItemDoc)
    (h : ∀ x ∈ l, x.oid ≠ d.oid) : findItem (l ++ [d]) d.oid = some d := by
  have := find?_append_fresh (fun x => x.oid = d.oid) l d
    (fun x hx => by simpa using h x hx)
  simpa [findItem] using this

theorem updateFirst_eq_none_iff {α : Type} (oid : α → Nat) (l : List α) (o : Nat)
    (f : α → α) :
    updateFirst oid l o f = none ↔ l.find? (fun a => oid a = o) = none := by
  induction l with
  | nil => simp [updateFirst, List.find?]
  | cons d ds ih =>
    by_cases h : oid d = o
    · simp [updateFirst, List.find?, h]
    · simp [updateFirst, List.find?, h, ih]

theorem updateFirst_isSome {α : Type} (oid : α → Nat) (l : List α) (o : Nat)
    (f : α → α) (d : α) (h : l.find? (fun a => oid a = o) = some d) :
    ∃ l', updateFirst oid l o f = some l' := by
  cases hu : updateFirst oid l o f with
  | some l' => exact ⟨l', rfl⟩
  | none =>
    rw [(updateFirst_eq_none_iff oid l o f).mp hu] at h
    cases h

theorem updateFirst_find {α : Type} (oid : α → Nat) (f : α → α)
    (hf : ∀ a, oid (f a) = oid a) (l : List α) (o : Nat) (d : α) (l' : List α)
    (h : l.find? (fun a => oid a = o) = some d)
    (hu : updateFirst oid l o f = some l') :
    l'.find? (fun a => oid a = o) = some (f d) := by
  induction l generalizing l' with
  | nil => cases h
  | cons x xs ih =>
    by_cases hx : oid x = o
    · rw [List.find?_cons_of_pos _ (by simpa using hx)] at h
      injection h with hd
      subst hd
      simp only [updateFirst, if_pos hx, Option.some.injEq] at hu
      subst hu
      rw [List.find?_cons_of_pos _ (by simp [hf x, hx])]
    · rw [List.find?_cons_of_neg _ (by simpa using hx)] at h
      simp only [updateFirst, if_neg hx] at hu
      cases hrec : updateFirst oid xs o f with
      | none => rw [hrec] at hu; cases hu
      | some ys =>
        rw [hrec] at hu
        simp at hu
        subst hu
        rw [List.find?_cons_of_neg _ (by simpa using hx)]
        exact ih ys h hrec

theorem updateFirst_map {α β : Type} (oid : α → Nat) (f : α → α) (g : α → β)
    (hg : ∀ a, g (f a) = g a) (l : List α) (o : Nat) (l' : List α)
    (hu : updateFirst oid l o f = some l') : l'.map g = l.map g := by
  induction l generalizing l' with
  | nil => cases hu
  | cons x xs ih =>
    by_cases hx : oid x = o
    · simp only [updateFirst, if_pos hx, Option.some.injEq] at hu
      subst hu
      simp [hg x]
    · simp only [updateFirst, if_neg hx] at hu
      cases hrec : updateFirst oid xs o f with
      | none => rw [hrec] at hu; cases hu
      | some ys =>
        rw [hrec] at hu
        simp at hu
        subst hu
        simp [List.map_cons, ih ys hrec]

theorem deleteFirst_eq_none_iff {α : Type} (oid : α → Nat) (l : List α) (o : Nat) :
    deleteFirst oid l o = none ↔ l.find? (fun a => oid a = o) = none := by
  induction l with
  | nil => simp [deleteFirst, List.find?]
  | cons d ds ih =>
    by_cases h : oid d = o
    · simp [deleteFirst, List.find?, h]
    · simp [deleteFirst, List.find?, h, ih]

theorem deleteFirst_isSome {α : Type} (oid : α → Nat) (l : List α) (o : Nat) (d : α)
    (h : l.find? (fun a => oid a = o) = some d) :
    ∃ l', deleteFirst oid l o = some l' := by
  cases hu : deleteFirst oid l o with
  | some l' => exact ⟨l', rfl⟩
  | none =>
    rw [(deleteFirst_eq_none_iff oid l o).mp hu] at h
    cases h

theorem deleteFirst_eq_filter {α : Type} (oid : α → Nat) (l : List α) (o : Nat)
    (l' : List α) (hnd : (l.map oid).Nodup) (hd : deleteFirst oid l o = some l') :
    l' = l.filter (fun a => !(oid a = o)) := by
  induction l generalizing l' with
  | nil => cases hd
  | cons x xs ih =>
    simp only [List.map_cons, List.nodup_cons] at hnd
    by_cases hx : oid x = o
    · simp only [deleteFirst, if_pos hx, Option.some.injEq] at hd
      subst hd
      have hall : ∀ a ∈ xs, oid a ≠ o := by
        intro a ha hao
        have hmem : oid a ∈ List.map oid xs := List.mem_map.mpr ⟨a, ha, rfl⟩
        rw [hao, ← hx] at hmem
        exact hnd.1 hmem
      have hpx : (!decide (oid x = o)) = false := by simp [hx]
      rw [List.filter_cons, hpx]
      simp only [Bool.false_eq_true, if_false]
      exact (List.filter_eq_self.mpr (fun a ha => by simp [hall a ha])).symm
    · simp only [deleteFirst, if_neg hx] at hd
      cases hrec : deleteFirst oid xs o with
      | none => rw [hrec] at hd; cases hd
      | some ys =>
        rw [hrec] at hd
        simp at hd
        subst hd
        have hpx : (!decide (oid x = o)) = true := by simp [hx]
        rw [List.filter_cons, hpx, if_pos rfl]
        rw [ih ys hnd.2 hrec]

theorem find?_filter_out {α : Type} (oid : α → Nat) (l : List α) (o : Nat) :
    (l.filter (fun a => !(oid a = o))).find? (fun a => oid a = o) = none := by
  rw [List.find?_eq_none]
  intro x hx
  have h2 := (List.mem_filter.mp hx).2
  simp only [Bool.not_eq_true'] at h2
  simp [h2]

/-- C10: an update request on either collection in which every field is
omitted or null produces an empty field-set and issues a store update with an
empty `$set` document; the store rejects this, so such a request propagates
as an unhandled store fault (`OperationFailure`) instead of returning the
unchanged record. -/
theorem C10_empty_update (s : Store) (id : String) (o : Nat)
    (hid : parseOid id = some o) :
    update_item s id ⟨none, none, none, none, none⟩ =
      (.error (.unhandled .operationFailure), s) ∧
    update_clock_in s id ⟨none, none⟩ =
      (.error (.unhandled .operationFailure), s) := by
  constructor
  · show update_item_go s id ⟨none, none, none, none, none⟩ none = _
    simp [update_item_go, hid, updFieldsEmpty]
  · simp [update_clock_in, hid, updClockFieldsEmpty]

/-- Witness for C10 at the well-formed id made of 24 zeros. -/
theorem C10_empty_update_witness :
    update_item emptyStore (oidStr 0) ⟨none, none, none, none, none⟩ =
      (.error (.unhandled .operationFailure), emptyStore) :=
  (C10_empty_update emptyStore (oidStr 0) 0 (parseOid_oidStr 0 (by norm_num))).1

/-- C9: filter parameters are tested for truthiness rather than presence, so
a provided `quantity_gte` of 0 and provided empty-string values for `email`,
`location` or the date parameters impose no constraint — the filter behaves
exactly as if those parameters were absent. -/
theorem C9_truthy_filter_params (s : Store) :
    (∀ ed idt q, filter_items s ⟨some "", ed, idt, q⟩ = filter_items s ⟨none, ed, idt, q⟩) ∧
    (∀ em idt q, filter_items s ⟨em, some "", idt, q⟩ = filter_items s ⟨em, none, idt, q⟩) ∧
    (∀ em ed q, filter_items s ⟨em, ed, some "", q⟩ = filter_items s ⟨em, ed, none, q⟩) ∧
    (∀ em ed idt, filter_items s ⟨em, ed, idt, some 0⟩ = filter_items s ⟨em, ed, idt, none⟩) ∧
    (∀ lo idt, filter_clock_in s ⟨some "", lo, idt⟩ = filter_clock_in s ⟨none, lo, idt⟩) ∧
    (∀ em idt, filter_clock_in s ⟨em, some "", idt⟩ = filter_clock_in s ⟨em, none, idt⟩) ∧
    (∀ em lo, filter_clock_in s ⟨em, lo, some ""⟩ = filter_clock_in s ⟨em, lo, none⟩) :=
  ⟨fun _ _ _ => rfl, fun _ _ _ => rfl, fun _ _ _ => rfl, fun _ _ _ => rfl,
   fun _ _ => rfl, fun _ _ => rfl, fun _ _ => rfl⟩

/-- C5: the items aggregate returns exactly one entry per distinct email
present in the items collection, each entry pairing that email with the count
of items having that email, with no filtering or pagination. -/
theorem C5_aggregate_counts (s : Store) :
    ((aggregate_items s).map Prod.fst).Nodup ∧
    (∀ e, e ∈ (aggregate_items s).map Prod.fst ↔ e ∈ s.items.map ItemDoc.email) ∧
    (∀ p ∈ aggregate_items s, p.2 = (s.items.filter (fun d => d.email = p.1)).length) := by
  have hkeys : (aggregate_items s).map Prod.fst = (s.items.map ItemDoc.email).dedup := by
    simp [aggregate_items, List.map_map, Function.comp_def]
  refine ⟨?_, ?_, ?_⟩
  · rw [hkeys]
    exact List.nodup_dedup _
  · intro e
    rw [hkeys, List.mem_dedup]
  · intro p hp
    simp only [aggregate_items, List.mem_map] at hp
    obtain ⟨e, _, rfl⟩ := hp
    rfl

/-- C1 fails as stated: on the malformed id "xyz", `ObjectId` raises
`InvalidId`, which escapes the handler as a server fault (status 500) — not
the `NotFoundError` surfaced with the "no content" status 204 that the claim
asserts for malformed ids. -/
theorem C1_counterexample :
    get_item emptyStore "xyz" = .error (.unhandled .invalidId) ∧
    Failure.unhandled .invalidId ≠ .httpError 204 "Item not found" ∧
    surfacedStatus (.unhandled .invalidId) = 500 := by
  refine ⟨?_, by decide, rfl⟩
  rfl

/-- Predicate on an update body: if `expiry_date` is provided it parses. -/
def expOkUpd (u : UpdateItem) : Prop :=
  ∀ es, u.expiry_date = some es → (parseDate es).isSome = true

/-- C1 (amended): for a WELL-FORMED id (24 hex characters) matching no
record, get/update/delete on both collections fail with `NotFoundError`
surfaced as the "no content" status 204 (for update, provided the body has a
provided field and any provided `expiry_date` is well-formed); a MALFORMED id
instead raises `bson.InvalidId`, which escapes the handler as an unhandled
server fault. -/
theorem C1_id_errors (s : Store) (id : String) (u : UpdateItem)
    (uc : UpdateClockInRecord) (hu : expOkUpd u)
    (hne : updFieldsEmpty u = false) (hnec : updClockFieldsEmpty uc = false) :
    (parseOid id = none →
      get_item s id = .error (.unhandled .invalidId) ∧
      update_item s id u = (.error (.unhandled .invalidId), s) ∧
      delete_item s id = (.error (.unhandled .invalidId), s) ∧
      get_clock_in s id = .error (.unhandled .invalidId) ∧
      update_clock_in s id uc = (.error (.unhandled .invalidId), s) ∧
      delete_clock_in s id = (.error (.unhandled .invalidId), s)) ∧
    (∀ o, parseOid id = some o → findItem s.items o = none →
      get_item s id = .error (.httpError 204 "Item not found") ∧
      update_item s id u = (.error (.httpError 204 "Item not found"), s) ∧
      delete_item s id = (.error (.httpError 204 "Item not found"), s)) ∧
    (∀ o, parseOid id = some o → findClock s.clock_in_records o = none →
      get_clock_in s id = .error (.httpError 204 "Clock-in record not found") ∧
      update_clock_in s id uc =
        (.error (.httpError 204 "Clock-in record not found"), s) ∧
      delete_clock_in s id =
        (.error (.httpError 204 "Clock-in record not found"), s)) := by
  refine ⟨?_, ?_, ?_⟩
  · intro hid
    refine ⟨by simp [get_item, hid], ?_, by simp [delete_item, hid],
      by simp [get_clock_in, hid], by simp [update_clock_in, hid, hnec],
      by simp [delete_clock_in, hid]⟩
    cases hexp : u.expiry_date with
    | none => simp [update_item, hexp, update_item_go, hid]
    | some es =>
      have hps := hu es hexp
      cases hpd : parseDate es with
      | none => rw [hpd] at hps; cases hps
      | some t => simp [update_item, hexp, hpd, update_item_go, hid]
  · intro o hid hfind
    have hup : updateFirst ItemDoc.oid s.items o (applyItemSet u none) = none :=
      (updateFirst_eq_none_iff _ _ _ _).mpr hfind
    refine ⟨by simp [get_item, hid, hfind], ?_, ?_⟩
    · cases hexp : u.expiry_date with
      | none =>
        have hupn := (updateFirst_eq_none_iff ItemDoc.oid s.items o (applyItemSet u none)).mpr hfind
        simp [update_item, hexp, update_item_go, hid, hne, hupn]
      | some es =>
        have hps := hu es hexp
        cases hpd : parseDate es with
        | none => rw [hpd] at hps; cases hps
        | some t =>
          have hupn := (updateFirst_eq_none_iff ItemDoc.oid s.items o
            (applyItemSet u (some t))).mpr hfind
          simp [update_item, hexp, hpd, update_item_go, hid, hne, hupn]
    · have hdel : deleteFirst ItemDoc.oid s.items o = none :=
        (deleteFirst_eq_none_iff _ _ _).mpr hfind
      simp [delete_item, hid, hdel]
  · intro o hid hfind
    have hup : updateFirst ClockDoc.oid s.clock_in_records o (applyClockSet uc) = none :=
      (updateFirst_eq_none_iff _ _ _ _).mpr hfind
    have hdel : deleteFirst ClockDoc.oid s.clock_in_records o = none :=
      (deleteFirst_eq_none_iff _ _ _).mpr hfind
    exact ⟨by simp [get_clock_in, hid, hfind],
      by simp [update_clock_in, hid, hnec, hup],
      by simp [delete_clock_in, hid, hdel]⟩

/-- Witness for the amended C1: both branches at concrete ids. -/
theorem C1_id_errors_witness :
    get_item emptyStore "xyz" = .error (.unhandled .invalidId) ∧
    get_item emptyStore (oidStr 5) = .error (.httpError 204 "Item not found") := by
  have hmal := (C1_id_errors emptyStore "xyz" ⟨none, none, none, some 7, none⟩
    ⟨some "a", none⟩ (fun es h => by cases h) rfl rfl).1 (by decide)
  have hnf := ((C1_id_errors emptyStore (oidStr 5) ⟨none, none, none, some 7, none⟩
    ⟨some "a", none⟩ (fun es h => by cases h) rfl rfl).2.1 5
    (parseOid_oidStr 5 (by norm_num)) rfl).1
  exact ⟨hmal.1, hnf⟩

/-- C2 fails as stated: a create request whose `expiry_date` does not parse
fails with the `ValueError` of `strptime` (the spec's `ParseError`), but that
exception escapes the handler and is surfaced as the server-error status 500,
not as a client-error status. -/
theorem C2_counterexample :
    (create_item emptyStore ⟨2024, 1, 1, 0, 0, 0⟩
        [("name", .jstr "n"), ("email", .jstr "e"), ("item_name", .jstr "i"),
         ("quantity", .jint 3), ("expiry_date", .jstr "not-a-date")]).1 =
      .error (.unhandled .valueError) ∧
    isClientError (surfacedStatus (.unhandled .valueError)) = false := by
  exact ⟨rfl, rfl⟩

/-- C2 (amended): a create or update whose `expiry_date` string does not
parse under `%Y-%m-%d` fails with `ParseError` (a `ValueError` escaping the
handler, surfaced as the server-error status 500, not a client-error
status); on create, a missing or non-coercible required field fails with
`ValidationError` surfaced as client-error status 422; in every such case no
record is inserted or modified (the store is returned unchanged). -/
theorem C2_bad_input_rejected (s : Store) (now : PyDateTime)
    (body : List (String × JVal)) (item : ItemIn) (id : String) (u : UpdateItem)
    (es : String) :
    (decodeItem body = none →
      create_item s now body = (.error .validationError, s) ∧
      isClientError (surfacedStatus .validationError) = true) ∧
    (decodeItem body = some item → parseDate item.expiry_date = none →
      create_item s now body = (.error (.unhandled .valueError), s)) ∧
    (u.expiry_date = some es → parseDate es = none →
      update_item s id u = (.error (.unhandled .valueError), s)) ∧
    surfacedStatus (.unhandled .valueError) = 500 := by
  refine ⟨?_, ?_, ?_, rfl⟩
  · intro hdec
    exact ⟨by simp [create_item, hdec], rfl⟩
  · intro hdec hpd
    simp [create_item, hdec, hpd]
  · intro hexp hpd
    simp [update_item, hexp, hpd]

/-- Witness for the amended C2 at concrete malformed bodies. -/
theorem C2_bad_input_rejected_witness :
    create_item emptyStore ⟨2024, 1, 1, 0, 0, 0⟩ [("name", .jstr "n")] =
      (.error .validationError, emptyStore) ∧
    update_item emptyStore (oidStr 0) ⟨none, none, none, none, some "oops"⟩ =
      (.error (.unhandled .valueError), emptyStore) := by
  have h := C2_bad_input_rejected emptyStore ⟨2024, 1, 1, 0, 0, 0⟩
    [("name", .jstr "n")] ⟨"n", "e", "i", 3, "2025-01-01"⟩ (oidStr 0)
    ⟨none, none, none, none, some "oops"⟩ "oops"
  exact ⟨(h.1 rfl).1, h.2.2.1 rfl rfl⟩

theorem filter_items_ok (s : Store) (f : ItemFilter) (t1 t2 : Option PyDateTime)
    (h1 : parseOptWith parseDate (truthyStr f.expiry_date_after) = .ok t1)
    (h2 : parseOptWith parseDate (truthyStr f.insert_date_after) = .ok t2) :
    filter_items s f = .ok (((s.items.filter
      (matchesItem (truthyStr f.email) t1 t2 (truthyInt f.quantity_gte))).take 100).map
        item_serializer) := by
  unfold filter_items
  rw [h1, h2]
  rfl

theorem filter_items_err1 (s : Store) (f : ItemFilter) (e : Failure)
    (h1 : parseOptWith parseDate (truthyStr f.expiry_date_after) = .error e) :
    filter_items s f = .error e := by
  unfold filter_items
  rw [h1]
  rfl

theorem filter_items_err2 (s : Store) (f : ItemFilter) (t1 : Option PyDateTime)
    (e : Failure)
    (h1 : parseOptWith parseDate (truthyStr f.expiry_date_after) = .ok t1)
    (h2 : parseOptWith parseDate (truthyStr f.insert_date_after) = .error e) :
    filter_items s f = .error e := by
  unfold filter_items
  rw [h1, h2]
  rfl

theorem filter_clock_in_ok (s : Store) (g : ClockFilter) (t : Option PyDateTime)
    (h1 : parseOptWith parseDateTime (truthyStr g.insert_datetime_after) = .ok t) :
    filter_clock_in s g = .ok (((s.clock_in_records.filter
      (matchesClock (truthyStr g.email) (truthyStr g.location) t)).take 100).map
        clock_serializer) := by
  unfold filter_clock_in
  rw [h1]
  rfl

theorem filter_clock_in_err (s : Store) (g : ClockFilter) (e : Failure)
    (h1 : parseOptWith parseDateTime (truthyStr g.insert_datetime_after) = .error e) :
    filter_clock_in s g = .error e := by
  unfold filter_clock_in
  rw [h1]
  rfl

/-- C6 fails as stated: `quantity_gte` is tested for truthiness, so the
provided threshold 0 adds no query clause and a record with negative
quantity (which creation does not forbid) is returned even though its
quantity is below the provided threshold. -/
theorem C6_counterexample :
    filter_items
        ⟨[⟨0, "n", "e", "i", -1, ⟨1970, 1, 1, 0, 0, 0⟩, ⟨1970, 1, 1, 0, 0, 0⟩⟩], [], 1⟩
        ⟨none, none, none, some 0⟩ =
      .ok [⟨oidStr 0, "n", "e", "i", -1, ⟨1970, 1, 1, 0, 0, 0⟩, ⟨1970, 1, 1, 0, 0, 0⟩⟩] ∧
    (-1 : Int) < 0 := by
  exact ⟨rfl, by norm_num⟩

/-- C6 (amended): when a NONZERO `quantity_gte` is provided, every returned
record has quantity at least the threshold (in particular `quantity_gte=5`
never returns a record with quantity below 5), and absent parameters impose
no constraint (all items are returned, up to the cap of 100).  A provided
`quantity_gte` of 0 is treated as absent. -/
theorem C6_quantity_filter (s : Store) (f : ItemFilter) (v : Int)
    (outs : List ItemOut) (out : ItemOut) :
    (f.quantity_gte = some v → v ≠ 0 → filter_items s f = .ok outs → out ∈ outs →
      v ≤ out.quantity) ∧
    filter_items s ⟨none, none, none, none⟩ =
      .ok ((s.items.take 100).map item_serializer) := by
  constructor
  · intro hq hv hres hmem
    cases h1 : parseOptWith parseDate (truthyStr f.expiry_date_after) with
    | error e => rw [filter_items_err1 s f e h1] at hres; cases hres
    | ok t1 =>
      cases h2 : parseOptWith parseDate (truthyStr f.insert_date_after) with
      | error e => rw [filter_items_err2 s f t1 e h1 h2] at hres; cases hres
      | ok t2 =>
        rw [filter_items_ok s f t1 t2 h1 h2] at hres
        simp only [Except.ok.injEq] at hres
        subst hres
        obtain ⟨d, hd, rfl⟩ := List.mem_map.mp hmem
        have hdf : d ∈ s.items.filter
            (matchesItem (truthyStr f.email) t1 t2 (truthyInt f.quantity_gte)) :=
          List.mem_of_mem_take hd
        have hmf := (List.mem_filter.mp hdf).2
        have htq : truthyInt f.quantity_gte = some v := by
          rw [hq]; simp [truthyInt, hv]
        rw [htq] at hmf
        unfold matchesItem at hmf
        simp only [Bool.and_eq_true] at hmf
        exact of_decide_eq_true hmf.2
  · have hfl : s.items.filter (matchesItem none none none none) = s.items :=
      List.filter_eq_self.mpr (fun a _ => rfl)
    rw [filter_items_ok s ⟨none, none, none, none⟩ none none rfl rfl]
    rw [show truthyStr (none : Option String) = none from rfl,
      show truthyInt (none : Option Int) = none from rfl, hfl]

/-- Witness for the amended C6: threshold 5 against an item of quantity 7. -/
theorem C6_quantity_filter_witness :
    (5 : Int) ≤ 7 := by
  have h := (C6_quantity_filter
    ⟨[⟨0, "n", "e", "i", 7, ⟨1970, 1, 1, 0, 0, 0⟩, ⟨1970, 1, 1, 0, 0, 0⟩⟩], [], 1⟩
    ⟨none, none, none, some 5⟩ 5
    [⟨oidStr 0, "n", "e", "i", 7, ⟨1970, 1, 1, 0, 0, 0⟩, ⟨1970, 1, 1, 0, 0, 0⟩⟩]
    ⟨oidStr 0, "n", "e", "i", 7, ⟨1970, 1, 1, 0, 0, 0⟩, ⟨1970, 1, 1, 0, 0, 0⟩⟩).1
    rfl (by norm_num) rfl (by simp)
  exact h

/-- C8 fails as stated: a filter request whose provided date parameter does
not parse raises `ValueError` (an error) even though zero records match (the
store is empty), instead of returning the empty sequence. -/
theorem C8_counterexample :
    filter_items emptyStore ⟨none, some "bad", none, none⟩ =
      .error (.unhandled .valueError) ∧
    emptyStore.items = [] := by
  exact ⟨rfl, rfl⟩

/-- C8 (amended): whenever a filter/list operation on either collection
succeeds it returns at most 100 records, and whenever the provided truthy
date parameters parse it does succeed, with an empty sequence (not an error)
when zero records match; a provided non-empty date parameter that does not
parse instead fails with the `strptime` `ValueError`. -/
theorem C8_filter_cap (s : Store) (f : ItemFilter) (g : ClockFilter)
    (outs : List ItemOut) (couts : List ClockOut) (t1 t2 tc : Option PyDateTime) :
    (filter_items s f = .ok outs → outs.length ≤ 100) ∧
    (filter_clock_in s g = .ok couts → couts.length ≤ 100) ∧
    (parseOptWith parseDate (truthyStr f.expiry_date_after) = .ok t1 →
      parseOptWith parseDate (truthyStr f.insert_date_after) = .ok t2 →
      ∃ res, filter_items s f = .ok res ∧
        (s.items.filter
            (matchesItem (truthyStr f.email) t1 t2 (truthyInt f.quantity_gte)) = [] →
          res = [])) ∧
    (parseOptWith parseDateTime (truthyStr g.insert_datetime_after) = .ok tc →
      ∃ res, filter_clock_in s g = .ok res ∧
        (s.clock_in_records.filter
            (matchesClock (truthyStr g.email) (truthyStr g.location) tc) = [] →
          res = [])) := by
  refine ⟨?_, ?_, ?_, ?_⟩
  · intro hres
    cases h1 : parseOptWith parseDate (truthyStr f.expiry_date_after) with
    | error e => rw [filter_items_err1 s f e h1] at hres; cases hres
    | ok u1 =>
      cases h2 : parseOptWith parseDate (truthyStr f.insert_date_after) with
      | error e => rw [filter_items_err2 s f u1 e h1 h2] at hres; cases hres
      | ok u2 =>
        rw [filter_items_ok s f u1 u2 h1 h2] at hres
        simp only [Except.ok.injEq] at hres
        subst hres
        rw [List.length_map]
        exact le_trans (List.length_take_le _ _) (le_refl 100)
  · intro hres
    cases h1 : parseOptWith parseDateTime (truthyStr g.insert_datetime_after) with
    | error e => rw [filter_clock_in_err s g e h1] at hres; cases hres
    | ok u1 =>
      rw [filter_clock_in_ok s g u1 h1] at hres
      simp only [Except.ok.injEq] at hres
      subst hres
      rw [List.length_map]
      exact le_trans (List.length_take_le _ _) (le_refl 100)
  · intro h1 h2
    refine ⟨_, filter_items_ok s f t1 t2 h1 h2, ?_⟩
    intro hempty
    rw [hempty]
    rfl
  · intro h1
    refine ⟨_, filter_clock_in_ok s g tc h1, ?_⟩
    intro hempty
    rw [hempty]
    rfl

/-- Witness for the amended C8 on the empty store with no parameters. -/
theorem C8_filter_cap_witness :
    ([] : List ItemOut).length ≤ 100 := by
  have h := (C8_filter_cap emptyStore ⟨none, none, none, none⟩ ⟨none, none, none⟩
    [] [] none none none).1
  exact h rfl

/-- C7: delete-by-id removes the matching record (and only it) and returns a
confirmation message; deleting a well-formed id that matches no record —
including an id already deleted, so a second delete of the same id in a row —
fails with `NotFoundError` (the "no content" status 204) and leaves the store
unchanged.  Both collections behave alike. -/
theorem C7_delete_semantics (s : Store) (id : String) (o : Nat)
    (hwf : s.WF) (hid : parseOid id = some o) :
    (∀ d, findItem s.items o = some d →
      ∃ s', delete_item s id = (.ok "Item deleted", s') ∧
        s'.items = s.items.filter (fun x => !(x.oid = o)) ∧
        s'.clock_in_records = s.clock_in_records ∧
        delete_item s' id = (.error (.httpError 204 "Item not found"), s')) ∧
    (findItem s.items o = none →
      delete_item s id = (.error (.httpError 204 "Item not found"), s)) ∧
    (∀ d, findClock s.clock_in_records o = some d →
      ∃ s', delete_clock_in s id = (.ok "Clock-in record deleted", s') ∧
        s'.clock_in_records = s.clock_in_records.filter (fun x => !(x.oid = o)) ∧
        s'.items = s.items ∧
        delete_clock_in s' id =
          (.error (.httpError 204 "Clock-in record not found"), s')) ∧
    (findClock s.clock_in_records o = none →
      delete_clock_in s id = (.error (.httpError 204 "Clock-in record not found"), s)) := by
  refine ⟨?_, ?_, ?_, ?_⟩
  · intro d hfind
    obtain ⟨l', hdel⟩ := deleteFirst_isSome ItemDoc.oid s.items o d hfind
    have hfl : l' = s.items.filter (fun x => !(x.oid = o)) :=
      deleteFirst_eq_filter ItemDoc.oid s.items o l' hwf.2.2.1 hdel
    refine ⟨⟨l', s.clock_in_records, s.nextOid⟩, by simp [delete_item, hid, hdel],
      hfl, rfl, ?_⟩
    have hnone : deleteFirst ItemDoc.oid l' o = none := by
      rw [deleteFirst_eq_none_iff, hfl]
      exact find?_filter_out ItemDoc.oid s.items o
    simp [delete_item, hid, hnone]
  · intro hfind
    have hnone : deleteFirst ItemDoc.oid s.items o = none :=
      (deleteFirst_eq_none_iff _ _ _).mpr hfind
    simp [delete_item, hid, hnone]
  · intro d hfind
    obtain ⟨l', hdel⟩ := deleteFirst_isSome ClockDoc.oid s.clock_in_records o d hfind
    have hfl : l' = s.clock_in_records.filter (fun x => !(x.oid = o)) :=
      deleteFirst_eq_filter ClockDoc.oid s.clock_in_records o l' hwf.2.2.2 hdel
    refine ⟨⟨s.items, l', s.nextOid⟩, by simp [delete_clock_in, hid, hdel],
      hfl, rfl, ?_⟩
    have hnone : deleteFirst ClockDoc.oid l' o = none := by
      rw [deleteFirst_eq_none_iff, hfl]
      exact find?_filter_out ClockDoc.oid s.clock_in_records o
    simp [delete_clock_in, hid, hnone]
  · intro hfind
    have hnone : deleteFirst ClockDoc.oid s.clock_in_records o = none :=
      (deleteFirst_eq_none_iff _ _ _).mpr hfind
    simp [delete_clock_in, hid, hnone]

/-- Witness for C7: delete the only item twice in a row. -/
theorem C7_delete_semantics_witness :
    delete_item ⟨[], [], 1⟩ (oidStr 0) =
      (.error (.httpError 204 "Item not found"), ⟨[], [], 1⟩) := by
  obtain ⟨s', h1, h2, h3, h4⟩ := (C7_delete_semantics
    ⟨[⟨0, "n", "e", "i", 1, ⟨1970, 1, 1, 0, 0, 0⟩, ⟨1970, 1, 1, 0, 0, 0⟩⟩], [], 1⟩
    (oidStr 0) 0 (by refine ⟨?_, ?_, ?_, ?_⟩ <;> simp [Store.WF])
    (parseOid_oidStr 0 (by norm_num))).1
    ⟨0, "n", "e", "i", 1, ⟨1970, 1, 1, 0, 0, 0⟩, ⟨1970, 1, 1, 0, 0, 0⟩⟩ rfl
  have hc : delete_item
      ⟨[⟨0, "n", "e", "i", 1, ⟨1970, 1, 1, 0, 0, 0⟩, ⟨1970, 1, 1, 0, 0, 0⟩⟩], [], 1⟩
      (oidStr 0) = (.ok "Item deleted", (⟨[], [], 1⟩ : Store)) := rfl
  rw [h1] at hc
  simp only [Prod.mk.injEq] at hc
  rw [← hc.2]
  exact h4

theorem update_item_go_keeps (s : Store) (id : String) (u : UpdateItem)
    (exp : Option PyDateTime) :
    (update_item_go s id u exp).2.items.map ItemDoc.insert_date =
      s.items.map ItemDoc.insert_date := by
  cases hid : parseOid id with
  | none => simp [update_item_go, hid]
  | some o =>
    by_cases he : updFieldsEmpty u = true
    · simp [update_item_go, hid, he]
    · rw [Bool.not_eq_true] at he
      cases hupd : updateFirst ItemDoc.oid s.items o (applyItemSet u exp) with
      | none => simp [update_item_go, hid, he, hupd]
      | some l' =>
        have hmap := updateFirst_map ItemDoc.oid (applyItemSet u exp)
          ItemDoc.insert_date (fun a => rfl) s.items o l' hupd
        cases hfind : findItem l' o with
        | none => simp [update_item_go, hid, he, hupd, hfind, hmap]
        | some dd => simp [update_item_go, hid, he, hupd, hfind, hmap]

theorem update_item_keeps_insert_dates (s : Store) (id : String) (u : UpdateItem) :
    (update_item s id u).2.items.map ItemDoc.insert_date =
      s.items.map ItemDoc.insert_date := by
  cases hexp : u.expiry_date with
  | none =>
    simp only [update_item, hexp]
    exact update_item_go_keeps s id u none
  | some es =>
    cases hpd : parseDate es with
    | none => simp [update_item, hexp, hpd]
    | some t =>
      simp only [update_item, hexp, hpd]
      exact update_item_go_keeps s id u (some t)

theorem update_clock_keeps_insert_datetimes (s : Store) (id : String)
    (uc : UpdateClockInRecord) :
    (update_clock_in s id uc).2.clock_in_records.map ClockDoc.insert_datetime =
      s.clock_in_records.map ClockDoc.insert_datetime := by
  cases hid : parseOid id with
  | none => simp [update_clock_in, hid]
  | some o =>
    by_cases he : updClockFieldsEmpty uc = true
    · simp [update_clock_in, hid, he]
    · rw [Bool.not_eq_true] at he
      cases hupd : updateFirst ClockDoc.oid s.clock_in_records o (applyClockSet uc) with
      | none => simp [update_clock_in, hid, he, hupd]
      | some l' =>
        have hmap := updateFirst_map ClockDoc.oid (applyClockSet uc)
          ClockDoc.insert_datetime (fun a => rfl) s.clock_in_records o l' hupd
        cases hfind : findClock l' o with
        | none => simp [update_clock_in, hid, he, hupd, hfind, hmap]
        | some dd => simp [update_clock_in, hid, he, hupd, hfind, hmap]

/-- C4: only provided non-null fields are changed by a partial update —
updating only `quantity` on an existing item leaves `name`, `email`,
`item_name` and `expiry_date` (and `insert_date`) unchanged; and no update
operation on either collection ever changes the stored `insert_date`
(resp. `insert_datetime`) of any document. -/
theorem C4_update_frame (s : Store) (id : String) (o : Nat) (d : ItemDoc) (q : Int)
    (u : UpdateItem) (uc : UpdateClockInRecord) :
    (parseOid id = some o → findItem s.items o = some d →
      ∃ out s', update_item s id ⟨none, none, none, some q, none⟩ = (.ok out, s') ∧
        out.name = d.name ∧ out.email = d.email ∧ out.item_name = d.item_name ∧
        out.expiry_date = d.expiry_date ∧ out.insert_date = d.insert_date ∧
        out.quantity = q) ∧
    ((update_item s id u).2.items.map ItemDoc.insert_date =
      s.items.map ItemDoc.insert_date) ∧
    ((update_clock_in s id uc).2.clock_in_records.map ClockDoc.insert_datetime =
      s.clock_in_records.map ClockDoc.insert_datetime) := by
  refine ⟨?_, update_item_keeps_insert_dates s id u,
    update_clock_keeps_insert_datetimes s id uc⟩
  intro hid hfind
  obtain ⟨l', hupd⟩ := updateFirst_isSome ItemDoc.oid s.items o
    (applyItemSet ⟨none, none, none, some q, none⟩ none) d hfind
  have hfind2 := updateFirst_find ItemDoc.oid
    (applyItemSet ⟨none, none, none, some q, none⟩ none) (fun a => rfl)
    s.items o d l' hfind hupd
  refine ⟨item_serializer (applyItemSet ⟨none, none, none, some q, none⟩ none d),
    ⟨l', s.clock_in_records, s.nextOid⟩, ?_, rfl, rfl, rfl, rfl, rfl, rfl⟩
  show update_item_go s id ⟨none, none, none, some q, none⟩ none = _
  simp [update_item_go, hid, hupd, findItem, hfind2, updFieldsEmpty]

/-- Witness for C4: update only `quantity` on a one-item store. -/
theorem C4_update_frame_witness :
    (⟨oidStr 0, "n", "e", "i", 9, ⟨2025, 1, 1, 0, 0, 0⟩,
        ⟨2024, 1, 1, 0, 0, 0⟩⟩ : ItemOut).name = "n" := by
  obtain ⟨out, s', h1, hname, -, -, -, -, -⟩ := (C4_update_frame
    ⟨[⟨0, "n", "e", "i", 1, ⟨2025, 1, 1, 0, 0, 0⟩, ⟨2024, 1, 1, 0, 0, 0⟩⟩], [], 1⟩
    (oidStr 0) 0 ⟨0, "n", "e", "i", 1, ⟨2025, 1, 1, 0, 0, 0⟩, ⟨2024, 1, 1, 0, 0, 0⟩⟩ 9
    ⟨none, none, none, none, none⟩ ⟨none, none⟩).1
    (parseOid_oidStr 0 (by norm_num)) rfl
  have hc : update_item
      ⟨[⟨0, "n", "e", "i", 1, ⟨2025, 1, 1, 0, 0, 0⟩, ⟨2024, 1, 1, 0, 0, 0⟩⟩], [], 1⟩
      (oidStr 0) ⟨none, none, none, some 9, none⟩ =
      (.ok ⟨oidStr 0, "n", "e", "i", 9, ⟨2025, 1, 1, 0, 0, 0⟩, ⟨2024, 1, 1, 0, 0, 0⟩⟩,
        ⟨[⟨0, "n", "e", "i", 9, ⟨2025, 1, 1, 0, 0, 0⟩, ⟨2024, 1, 1, 0, 0, 0⟩⟩], [], 1⟩) := rfl
  rw [h1] at hc

/-- C3: round-trip — for every valid item creation input, creating the item
and then fetching by the returned id succeeds and yields a record in which
all fields except the server-assigned ones (`id`, `insert_date`) equal the
creation input, with `expiry_date` comparing equal to the calendar date named
by the input string. -/
theorem C3_roundtrip (s : Store) (now : PyDateTime) (body : List (String × JVal))
    (item : ItemIn) (exp : PyDateTime)
    (hwf : s.WF) (hcap : s.nextOid < 16 ^ 24)
    (hdec : decodeItem body = some item)
    (hexp : parseDate item.expiry_date = some exp) :
    ∃ out : ItemOut,
      (create_item s now body).1 = .ok out ∧
      get_item (create_item s now body).2 out.id = .ok out ∧
      out.name = item.name ∧ out.email = item.email ∧
      out.item_name = item.item_name ∧ out.quantity = item.quantity ∧
      out.expiry_date = exp ∧ out.insert_date = now := by
  have hfresh : ∀ x ∈ s.items,
      x.oid ≠ (⟨s.nextOid, item.name, item.email, item.item_name, item.quantity,
        exp, now⟩ : ItemDoc).oid :=
    fun x hx => Nat.ne_of_lt (hwf.1 x hx)
  have hfind := findItem_append_self s.items
    ⟨s.nextOid, item.name, item.email, item.item_name, item.quantity, exp, now⟩ hfresh
  have hres : create_item s now body =
      (.ok (item_serializer ⟨s.nextOid, item.name, item.email, item.item_name,
          item.quantity, exp, now⟩),
        ⟨s.items ++ [⟨s.nextOid, item.name, item.email, item.item_name,
          item.quantity, exp, now⟩], s.clock_in_records, s.nextOid + 1⟩) := by
    simp [create_item, hdec, hexp, hfind]
  refine ⟨item_serializer ⟨s.nextOid, item.name, item.email, item.item_name,
    item.quantity, exp, now⟩, ?_, ?_, rfl, rfl, rfl, rfl, rfl, rfl⟩
  · rw [hres]
  · rw [hres]
    show get_item _ (oidStr s.nextOid) = _
    simp [get_item, parseOid_oidStr s.nextOid hcap, hfind]

/-- Witness for C3 on the empty store with a concrete valid body. -/
theorem C3_roundtrip_witness :
    ∃ out : ItemOut,
      (create_item emptyStore ⟨2024, 1, 1, 0, 0, 0⟩
        [("name", .jstr "n"), ("email", .jstr "e"), ("item_name", .jstr "i"),
         ("quantity", .jint 3), ("expiry_date", .jstr "2025-01-01")]).1 = .ok out ∧
      get_item (create_item emptyStore ⟨2024, 1, 1, 0, 0, 0⟩
        [("name", .jstr "n"), ("email", .jstr "e"), ("item_name", .jstr "i"),
         ("quantity", .jint 3), ("expiry_date", .jstr "2025-01-01")]).2 out.id = .ok out ∧
      out.name = "n" ∧ out.email = "e" ∧ out.item_name = "i" ∧ out.quantity = 3 ∧
      out.expiry_date = ⟨2025, 1, 1, 0, 0, 0⟩ ∧
      out.insert_date = ⟨2024, 1, 1, 0, 0, 0⟩ :=
  C3_roundtrip emptyStore ⟨2024, 1, 1, 0, 0, 0⟩
    [("name", .jstr "n"), ("email", .jstr "e"), ("item_name", .jstr "i"),
     ("quantity", .jint 3), ("expiry_date", .jstr "2025-01-01")]
    ⟨"n", "e", "i", 3, "2025-01-01"⟩ ⟨2025, 1, 1, 0, 0, 0⟩
    (by refine ⟨?_, ?_, ?_, ?_⟩ <;> simp [Store.WF, emptyStore])
    (by norm_num [emptyStore]) rfl rfl
